import Mathlib

/-!
Verification of the TiDB vector-database benchmark adapter
(`vectordb_bench/backend/clients/tidb/{config.py,tidb.py}`).

The Python classes are shallowly embedded: pure computations become Lean
functions, dictionaries become association lists with an explicit
`Except`-raising lookup, the database and the thread pool become explicit
oracles (a success/failure outcome per statement or per worker), and the
adapter's SQL side effects become traces of statements/events.
-/

set_option autoImplicit false

namespace VDB

/-- Modelled from the spec: the abstract distance metric enum from the shared
API module (`..api.MetricType`), which is not under `src/`.  The spec names
three metrics: Euclidean (L2), inner-product (IP), cosine. -/
inductive MetricType
  | L2
  | IP
  | COSINE
deriving DecidableEq

/-- `TiDBIndexConfig` from `config.py`: holds an optional metric type
(`metric_type: MetricType | None = None`). -/
structure TiDBIndexConfig where
  metric_type : Option MetricType
deriving DecidableEq

/-- `TiDBIndexConfig.parse_metric` from `config.py`. -/
def TiDBIndexConfig.parse_metric (c : TiDBIndexConfig) : String :=
  if c.metric_type = some MetricType.L2 then "Euclid"
  else if c.metric_type = some MetricType.IP then "Dot"
  else "Cosine"

/-- `TiDBIndexConfig.index_param` from `config.py`: the dict
`\x7b"distance": self.parse_metric()\x7d`, embedded as an association list. -/
def TiDBIndexConfig.index_param (c : TiDBIndexConfig) : List (String × String) :=
  [("distance", c.parse_metric)]

/-- `TiDBIndexConfig.search_param` from `config.py`: the empty dict. -/
def TiDBIndexConfig.search_param (_ : TiDBIndexConfig) : List (String × String) :=
  []

/-- Python exceptions the embedded code can raise: `KeyError(key)` from a dict
lookup `d[key]` on a missing key, and database-side errors (carrying the MySQL
error code) surfaced by `cursor.execute`. -/
inductive PyError
  | keyError (key : String)
  | dbError (code : Nat)
deriving DecidableEq

/-- Python `d[k]` on an association-list dict: the value when the key is
present, `KeyError(k)` otherwise. -/
def dictGet (d : List (String × String)) (k : String) : Except PyError String :=
  match d.find? (fun p => p.1 = k) with
  | some p => Except.ok p.2
  | none => Except.error (PyError.keyError k)

/-- The adapter's per-instance fields set by `TiDB.__init__` (`tidb.py`):
table name, dimension, vector-field and index names, the resolved search
function, and the case config. -/
structure TiDBState where
  table_name : String
  dim : Nat
  vector_field : String
  index_name : String
  search_fn : String
  case_config : TiDBIndexConfig
deriving DecidableEq

/-- `TiDB.__init__` (`tidb.py` lines 19-42): sets the fixed fields and then
evaluates `db_case_config.search_param()["metric_fn"]`, whose `KeyError`
propagates out of the constructor (before the optional `drop_old` block). -/
def TiDB.construct (dim : Nat) (db_case_config : TiDBIndexConfig)
    (collection_name : String) : Except PyError TiDBState :=
  match dictGet db_case_config.search_param "metric_fn" with
  | Except.error e => Except.error e
  | Except.ok fn =>
      Except.ok
        { table_name := collection_name
          dim := dim
          vector_field := "embedding"
          index_name := "tidb_vector_index"
          search_fn := fn
          case_config := db_case_config }

/-- The CREATE TABLE statement `TiDB._create_table` interpolates, given the
resolved `index_param["metric_fn"]` value (`tidb.py` lines 75-84). -/
def createTableSQL (st : TiDBState) (metric_fn : String) : String :=
  "CREATE TABLE " ++ st.table_name ++ " ( uuid BINARY(16) PRIMARY KEY, " ++
    "id BIGINT NOT NULL, embedding VECTOR(" ++ toString st.dim ++ ") NOT NULL, " ++
    "VECTOR INDEX " ++ st.index_name ++ " ((" ++ metric_fn ++ "(embedding))) );"

/-- `TiDB._create_table` (`tidb.py` lines 71-88) run against a database whose
state is the list of existing table names: building the statement evaluates
`index_param["metric_fn"]` (a dict lookup that can raise), and executing a
plain CREATE TABLE (no IF NOT EXISTS) fails with MySQL error 1050 when the
table already exists; on success the table is added. -/
def create_table (tables : List String) (st : TiDBState) :
    Except PyError (List String) :=
  match dictGet st.case_config.index_param "metric_fn" with
  | Except.error e => Except.error e
  | Except.ok fn =>
      let _stmt := createTableSQL st fn
      if st.table_name ∈ tables then Except.error (PyError.dbError 1050)
      else Except.ok (st.table_name :: tables)

/-- `TiDB._create_index` (`tidb.py` lines 90-97): the two statements it
executes, in order — enable the TiFlash replica, then create the vector
index with the hard-coded `VEC_COSINE_DISTANCE` function. -/
def create_index_stmts (st : TiDBState) : List String :=
  [ "ALTER TABLE `" ++ st.table_name ++ "` SET TIFLASH REPLICA 1;",
    "CREATE VECTOR INDEX `" ++ st.index_name ++ "` ON `" ++ st.table_name ++
      "` ((VEC_COSINE_DISTANCE(" ++ st.vector_field ++ "))) USING HNSW;" ]

/-- Observable steps of `TiDB.optimize` and its helpers: the DROP INDEX of
`_drop_index`, the two statements of `_create_index`, a replica-progress
poll, a `time.sleep`, the catch-up read of `_optimize_wait_tiflash_catch_up`,
the compaction of `_optimize_compact_tiflash`, and a pending-rows poll. -/
inductive OptEvent
  | dropIndex
  | setTiflashReplica
  | createVectorIndex
  | pollProgress (v : Int)
  | sleep (secs : Nat)
  | catchUpRead
  | compact
  | pollPending (v : Int)
deriving DecidableEq

/-- The replica-progress loop of `TiDB.optimize` (`tidb.py` lines 121-127),
driven by the finite list of values the catalog will return to successive
polls: poll, and if the progress is not 1 sleep 2 seconds and loop, else
break.  `none` means the given responses never let the loop exit. -/
def replicaWait : List Int → Option (List OptEvent)
  | [] => none
  | p :: rest =>
      if p ≠ 1 then
        (replicaWait rest).map
          (fun t => OptEvent.pollProgress p :: OptEvent.sleep 2 :: t)
      else some [OptEvent.pollProgress p]

/-- The index-backlog loop of `TiDB.optimize` (`tidb.py` lines 137-145),
driven by the pending-row counts the catalog returns: poll, and while the
count is positive sleep 2 seconds and loop, else break. -/
def pendingWait : List Int → Option (List OptEvent)
  | [] => none
  | p :: rest =>
      if p > 0 then
        (pendingWait rest).map
          (fun t => OptEvent.pollPending p :: OptEvent.sleep 2 :: t)
      else some [OptEvent.pollPending p]

/-- `TiDB.optimize` (`tidb.py` lines 111-147) as an event trace:
`_drop_index`, then `_create_index` (replica DDL then index DDL), then the
replica-progress loop, then the catch-up read, then the compaction, then the
backlog loop.  The two oracles list the catalog's successive answers. -/
def optimize (progress pending : List Int) : Option (List OptEvent) :=
  match replicaWait progress, pendingWait pending with
  | some t1, some t2 =>
      some ([OptEvent.dropIndex, OptEvent.setTiflashReplica,
             OptEvent.createVectorIndex] ++ t1 ++
            [OptEvent.catchUpRead, OptEvent.compact] ++ t2)
  | _, _ => none

/-- The sub-batch size of `TiDB.insert_embeddings` (`tidb.py` line 267):
`max(1, (total_len + workers - 1) // workers)`. -/
def batchSize (total_len workers : Nat) : Nat :=
  max 1 ((total_len + workers - 1) / workers)

/-- The slicing loop of `TiDB.insert_embeddings` (`tidb.py` lines 270-273):
`for i in range(0, total_len, bs)` take the slice `l[i : min(i+bs, total)]`.
Empty slices are never produced (the code also skips them explicitly). -/
def chunkSlices {α : Type} : Nat → List α → List (List α)
  | _, [] => []
  | 0, _ :: _ => []
  | bs + 1, x :: xs =>
      (x :: xs).take (bs + 1) :: chunkSlices (bs + 1) ((x :: xs).drop (bs + 1))
termination_by _ l => l.length
decreasing_by simp [List.length_drop]; omega

/-! ### SHA-1 and `uuid.uuid5`, used for the surrogate key

`TiDB.bulk_insert_embeddings` computes `uuid.uuid5(uuid.NAMESPACE_DNS,
str(m)).bytes` for each identifier `m` (`tidb.py` line 218).  `uuid5` is
RFC 4122: SHA-1 of the namespace bytes followed by the name bytes, truncated
to 16 bytes with the version/variant bits forced.  Machine words are `Nat`
with explicit reduction modulo `2^32`; byte strings are `List Nat`. -/

/-- Truncation to a 32-bit word. -/
def w32 (x : Nat) : Nat := x % 4294967296

/-- Left rotation of a 32-bit word by `n` bits. -/
def rotl (n x : Nat) : Nat := w32 ((x <<< n) ||| (x >>> (32 - n)))

/-- Big-endian bytes of a 32-bit word. -/
def toBe32 (x : Nat) : List Nat :=
  [x / 2 ^ 24 % 256, x / 2 ^ 16 % 256, x / 2 ^ 8 % 256, x % 256]

/-- Big-endian bytes of a 64-bit length field. -/
def toBe64 (x : Nat) : List Nat :=
  [x / 2 ^ 56 % 256, x / 2 ^ 48 % 256, x / 2 ^ 40 % 256, x / 2 ^ 32 % 256,
   x / 2 ^ 24 % 256, x / 2 ^ 16 % 256, x / 2 ^ 8 % 256, x % 256]

/-- SHA-1 padding: append `0x80`, zero-pad to 56 mod 64, append the bit
length as a big-endian 64-bit integer. -/
def sha1Pad (msg : List Nat) : List Nat :=
  msg ++ 0x80 :: List.replicate ((119 - msg.length % 64) % 64) 0 ++
    toBe64 (8 * msg.length)

/-- Big-endian 32-bit words of a 64-byte block. -/
def bytesToWords (block : List Nat) : List Nat :=
  (chunkSlices 4 block).map (fun b => b.foldl (fun a c => a * 256 + c) 0)

/-- The SHA-1 message-schedule extension step, iterated 64 times; `acc` holds
the words produced so far in reverse order. -/
def sha1Extend : Nat → List Nat → List Nat
  | 0, acc => acc
  | n + 1, acc =>
      sha1Extend n
        (rotl 1 (acc.getD 2 0 ^^^ acc.getD 7 0 ^^^ acc.getD 13 0 ^^^ acc.getD 15 0)
          :: acc)

/-- The 80 words of the SHA-1 message schedule for one block. -/
def sha1Schedule (block : List Nat) : List Nat :=
  (sha1Extend 64 (bytesToWords block).reverse).reverse

/-- One SHA-1 round: round index `t`, working state `(a, b, c, d, e)`,
schedule word `w`. -/
def sha1Round (t : Nat) (s : Nat × Nat × Nat × Nat × Nat) (w : Nat) :
    Nat × Nat × Nat × Nat × Nat :=
  let (a, b, c, d, e) := s
  let f :=
    if t < 20 then (b &&& c) ||| ((b ^^^ 0xFFFFFFFF) &&& d)
    else if t < 40 then b ^^^ c ^^^ d
    else if t < 60 then (b &&& c) ||| (b &&& d) ||| (c &&& d)
    else b ^^^ c ^^^ d
  let k :=
    if t < 20 then 0x5A827999
    else if t < 40 then 0x6ED9EBA1
    else if t < 60 then 0x8F1BBCDC
    else 0xCA62C1D6
  (w32 (rotl 5 a + f + e + k + w), a, rotl 30 b, c, d)

/-- SHA-1 compression of one 64-byte block into the running digest state. -/
def sha1Block (h : Nat × Nat × Nat × Nat × Nat) (block : List Nat) :
    Nat × Nat × Nat × Nat × Nat :=
  let (h0, h1, h2, h3, h4) := h
  let (a, b, c, d, e) :=
    (sha1Schedule block).enum.foldl (fun s p => sha1Round p.1 s p.2)
      (h0, h1, h2, h3, h4)
  (w32 (h0 + a), w32 (h1 + b), w32 (h2 + c), w32 (h3 + d), w32 (h4 + e))

/-- The SHA-1 digest (20 bytes) of a byte string. -/
def sha1 (msg : List Nat) : List Nat :=
  let f := (chunkSlices 64 (sha1Pad msg)).foldl sha1Block
      (0x67452301, 0xEFCDAB89, 0x98BADCFE, 0x10325476, 0xC3D2E1F0)
  toBe32 f.1 ++ toBe32 f.2.1 ++ toBe32 f.2.2.1 ++ toBe32 f.2.2.2.1 ++
    toBe32 f.2.2.2.2

/-- The 16 bytes of `uuid.NAMESPACE_DNS`
(`6ba7b810-9dad-11d1-80b4-00c04fd430c8`). -/
def NAMESPACE_DNS : List Nat :=
  [0x6b, 0xa7, 0xb8, 0x10, 0x9d, 0xad, 0x11, 0xd1,
   0x80, 0xb4, 0x00, 0xc0, 0x4f, 0xd4, 0x30, 0xc8]

/-- Bytes of a string (the names hashed here are ASCII decimal literals, so
UTF-8 is the identity on code points). -/
def strBytes (s : String) : List Nat := s.toList.map Char.toNat

/-- `uuid.uuid5(uuid.NAMESPACE_DNS, name).bytes`: the first 16 bytes of the
SHA-1 of namespace-bytes ++ name-bytes, with the version nibble of byte 6
forced to 5 and the variant bits of byte 8 forced to `10`. -/
def uuid5Bytes (name : String) : List Nat :=
  let h := (sha1 (NAMESPACE_DNS ++ strBytes name)).take 16
  (h.set 6 ((h.getD 6 0 &&& 0x0F) ||| 0x50)).set 8
    ((h.getD 8 0 &&& 0x3F) ||| 0x80)

/-- The surrogate key of an identifier (`tidb.py` line 218):
`uuid.uuid5(uuid.NAMESPACE_DNS, str(m)).bytes`. -/
def surrogateKey (m : Int) : List Nat := uuid5Bytes (toString m)

/-! ### Loader -/

/-- A committed row of the benchmark table: surrogate uuid bytes, identifier,
and the vector payload (kept abstract; its JSON serialization is a fixed
injective encoding irrelevant to the properties below). -/
structure Row (V : Type) where
  uuid : List Nat
  id : Int
  emb : V
deriving DecidableEq

/-- The rows a batch contributes, in order: `for m, e in zip(metadata,
embeddings)` build `(uuid5(str(m)).bytes, m, e)` (`tidb.py` lines 215-221). -/
def buildRows {V : Type} (metadata : List Int) (embeddings : List V) :
    List (Row V) :=
  (metadata.zip embeddings).map (fun p => { uuid := surrogateKey p.1, id := p.1, emb := p.2 })

/-- The placeholder groups of the single multi-row INSERT statement: one
`(%s, %s, %s)` per zipped row (`tidb.py` lines 215-216). -/
def valuesPlaceholders {V : Type} (metadata : List Int) (embeddings : List V) :
    List String :=
  (metadata.zip embeddings).map (fun _ => "(%s, %s, %s)")

/-- `TiDB.bulk_insert_embeddings` (`tidb.py` lines 203-241) against the
committed table state.  The single `cursor.execute` of the multi-row INSERT
either succeeds (`outcome = none`) — and the following `conn.commit()`
publishes all rows of the batch — or raises some database error
(`outcome = some e`); then the session closes without commit, discarding its
pending write, and the exception is re-raised.  Returns the committed state
together with the raised error, if any. -/
def bulk_insert_embeddings {V : Type} (committed : List (Row V))
    (embeddings : List V) (metadata : List Int) (outcome : Option PyError) :
    List (Row V) × Option PyError :=
  match outcome with
  | none => (committed ++ buildRows metadata embeddings, none)
  | some e => (committed, some e)

/-- The worker loop of `TiDB.insert_embeddings`, sequentialized: worker `i`
runs the single-statement path on its sub-batch with outcome `oracle i`;
`concurrent.futures.wait(..., FIRST_EXCEPTION)` stops at the first failure,
whose exception `future.result()` re-raises, and the remaining workers are
cancelled. -/
def loadChunks {V : Type} (oracle : Nat → Option PyError) :
    Nat → List (List V × List Int) → List (Row V) → List (Row V) × Option PyError
  | _, [], st => (st, none)
  | i, (ce, cm) :: rest, st =>
      match bulk_insert_embeddings st ce cm (oracle i) with
      | (st', none) => loadChunks oracle (i + 1) rest st'
      | (st', some e) => (st', some e)

/-- `TiDB.insert_embeddings` (`tidb.py` lines 254-286): empty input returns
`(0, None)`; otherwise the batch is sliced with `batchSize total 10`, each
slice is submitted to a worker, and the call returns `(len(metadata), None)`
when every worker succeeds or raises the first failure. -/
def insert_embeddings {V : Type} (committed : List (Row V))
    (embeddings : List V) (metadata : List Int) (oracle : Nat → Option PyError) :
    List (Row V) × Except PyError Nat :=
  if embeddings.length = 0 then (committed, Except.ok 0)
  else
    let bs := batchSize embeddings.length 10
    let pairs := (chunkSlices bs embeddings).zip (chunkSlices bs metadata)
    match loadChunks oracle 0 pairs committed with
    | (st', none) => (st', Except.ok metadata.length)
    | (st', some e) => (st', Except.error e)

/-! ### Query executor -/

/-- The SQL text `TiDB.search_embedding` interpolates (`tidb.py` lines
297-302), with `queryRepr` standing for Python's `str(query)`. -/
def searchSQL (st : TiDBState) (queryRepr : String) (k : Nat) : String :=
  "SELECT id FROM " ++ st.table_name ++ " ORDER BY " ++ st.search_fn ++
    "(embedding, \"" ++ queryRepr ++ "\") LIMIT " ++ toString k ++ ";"

/-- `TiDB.search_embedding` (`tidb.py` lines 289-304): builds the statement,
executes it (`db` maps a statement to the first-column integers of the rows
the database returns), and returns the identifier list.  The `filters` and
`timeout` arguments are accepted and never read, exactly as in the source. -/
def search_embedding {F : Type} (st : TiDBState) (db : String → List Int)
    (queryRepr : String) (k : Nat) (filters : Option F) (timeout : Option Nat) :
    String × List Int :=
  let _ := filters
  let _ := timeout
  let stmt := searchSQL st queryRepr k
  (stmt, db stmt)

/-- Number of replica-progress polls in a trace. -/
def countPolls (t : List OptEvent) : Nat :=
  t.countP (fun e => match e with | OptEvent.pollProgress _ => true | _ => false)

/-- Number of sleeps in a trace. -/
def countSleeps (t : List OptEvent) : Nat :=
  t.countP (fun e => match e with | OptEvent.sleep _ => true | _ => false)

/-! ### Helper lemmas -/

theorem chunkSlices_flatten {α : Type} (bs : Nat) (l : List α) (hbs : bs ≠ 0) :
    (chunkSlices bs l).flatten = l := by
  induction bs, l using chunkSlices.induct with
  | case1 bs => simp [chunkSlices]
  | case2 x xs => exact absurd rfl hbs
  | case3 bs x xs ih =>
      rw [chunkSlices]
      simp only [List.flatten_cons]
      rw [ih (Nat.succ_ne_zero bs), List.take_append_drop]

theorem chunkSlices_ne_nil {α : Type} (bs : Nat) (l : List α) (hbs : bs ≠ 0)
    (hl : l ≠ []) : chunkSlices bs l ≠ [] := by
  match bs, l with
  | _, [] => exact absurd rfl hl
  | 0, _ :: _ => exact absurd rfl hbs
  | bs + 1, x :: xs => rw [chunkSlices]; simp

theorem chunkSlices_sizes {α : Type} (bs : Nat) (l : List α) (hbs : bs ≠ 0) :
    ∀ c ∈ chunkSlices bs l, c.length ≤ bs ∧ c ≠ [] := by
  induction bs, l using chunkSlices.induct with
  | case1 bs => simp [chunkSlices]
  | case2 x xs => exact absurd rfl hbs
  | case3 bs x xs ih =>
      rw [chunkSlices]
      intro c hc
      rcases List.mem_cons.mp hc with h | h
      · subst h
        refine ⟨by simp, ?_⟩
        simp [List.take_eq_nil_iff]
      · exact ih (Nat.succ_ne_zero bs) c h

theorem chunkSlices_dropLast_sizes {α : Type} (bs : Nat) (l : List α)
    (hbs : bs ≠ 0) : ∀ c ∈ (chunkSlices bs l).dropLast, c.length = bs := by
  induction bs, l using chunkSlices.induct with
  | case1 bs => simp [chunkSlices]
  | case2 x xs => exact absurd rfl hbs
  | case3 bs x xs ih =>
      rw [chunkSlices]
      cases hC : chunkSlices (bs + 1) ((x :: xs).drop (bs + 1)) with
      | nil => simp
      | cons c0 cs =>
          intro c hc
          rw [List.dropLast_cons_of_ne_nil (by simp)] at hc
          rcases List.mem_cons.mp hc with h | h
          · subst h
            have hdrop : (x :: xs).drop (bs + 1) ≠ [] := by
              intro hnil
              rw [hnil] at hC
              simp [chunkSlices] at hC
            have hlen : bs + 1 ≤ (x :: xs).length := by
              by_contra hcon
              push_neg at hcon
              exact hdrop (List.drop_eq_nil_of_le (Nat.le_of_lt hcon))
            rw [List.length_take]
            exact Nat.min_eq_left hlen
          · exact ih (Nat.succ_ne_zero bs) c (by rw [hC]; exact h)

theorem chunkSlices_eq_range_map {α : Type} (bs : Nat) (l : List α) (hbs : bs ≠ 0) :
    chunkSlices bs l =
      (List.range (chunkSlices bs l).length).map
        (fun i => (l.drop (i * bs)).take bs) := by
  induction bs, l using chunkSlices.induct with
  | case1 bs => simp [chunkSlices]
  | case2 x xs => exact absurd rfl hbs
  | case3 bs x xs ih =>
      rw [chunkSlices]
      simp only [List.length_cons, List.range_succ_eq_map, List.map_cons,
        List.map_map]
      refine congrArg₂ _ (by simp) ?_
      nth_rewrite 1 [ih (Nat.succ_ne_zero bs)]
      refine List.map_congr_left (fun i _ => ?_)
      simp only [Function.comp_apply, List.drop_drop, Nat.succ_eq_add_one]
      congr 2
      ring

theorem chunkSlices_length_congr {α β : Type} (bs : Nat) (l1 : List α)
    (l2 : List β) (hbs : bs ≠ 0) (hlen : l1.length = l2.length) :
    (chunkSlices bs l1).length = (chunkSlices bs l2).length := by
  revert l2
  induction bs, l1 using chunkSlices.induct with
  | case1 bs =>
      intro l2 hlen
      have h2 : l2 = [] := List.length_eq_zero.mp (by simpa using hlen.symm)
      subst h2
      simp [chunkSlices]
  | case2 x xs => exact absurd rfl hbs
  | case3 bs x xs ih =>
      intro l2 hlen
      cases l2 with
      | nil => simp at hlen
      | cons y ys =>
          rw [chunkSlices, chunkSlices]
          simp only [List.length_cons, Nat.add_right_cancel_iff]
          refine ih (Nat.succ_ne_zero bs) _ ?_
          simp only [List.length_drop, List.length_cons]
          simp only [List.length_cons] at hlen
          omega

theorem loadChunks_all_ok {V : Type} (oracle : Nat → Option PyError)
    (pairs : List (List V × List Int)) (i : Nat) (st : List (Row V))
    (h : ∀ j, j < pairs.length → oracle (i + j) = none) :
    (loadChunks oracle i pairs st).2 = none := by
  induction pairs generalizing i st with
  | nil => rfl
  | cons p rest ih =>
      obtain ⟨ce, cm⟩ := p
      have h0 : oracle i = none := by simpa using h 0 (by simp)
      rw [loadChunks]
      simp only [bulk_insert_embeddings, h0]
      exact ih (i + 1) _ (fun j hj => by
        have := h (j + 1) (by simpa using Nat.succ_lt_succ hj)
        simpa [Nat.add_assoc, Nat.add_comm 1 j] using this)

theorem loadChunks_first_fail {V : Type} (oracle : Nat → Option PyError)
    (pairs : List (List V × List Int)) (i k : Nat) (st : List (Row V))
    (e : PyError) (hk : k < pairs.length) (he : oracle (i + k) = some e)
    (hbefore : ∀ j, j < k → oracle (i + j) = none) :
    (loadChunks oracle i pairs st).2 = some e := by
  induction pairs generalizing i k st with
  | nil => simp at hk
  | cons p rest ih =>
      obtain ⟨ce, cm⟩ := p
      cases k with
      | zero =>
          have h0 : oracle i = some e := by simpa using he
          rw [loadChunks]
          simp [bulk_insert_embeddings, h0]
      | succ k =>
          have h0 : oracle i = none := by simpa using hbefore 0 (Nat.succ_pos k)
          rw [loadChunks]
          simp only [bulk_insert_embeddings, h0]
          exact ih (i + 1) k _ (by simpa using Nat.lt_of_succ_lt_succ hk)
            (by simpa [Nat.add_assoc, Nat.add_comm 1 k] using he)
            (fun j hj => by
              have := hbefore (j + 1) (Nat.succ_lt_succ hj)
              simpa [Nat.add_assoc, Nat.add_comm 1 j] using this)

theorem loadChunks_ok_all {V : Type} (oracle : Nat → Option PyError)
    (pairs : List (List V × List Int)) (i : Nat) (st : List (Row V))
    (h : (loadChunks oracle i pairs st).2 = none) :
    ∀ j, j < pairs.length → oracle (i + j) = none := by
  induction pairs generalizing i st with
  | nil => intro j hj; simp at hj
  | cons p rest ih =>
      obtain ⟨ce, cm⟩ := p
      intro j hj
      rw [loadChunks] at h
      cases h0 : oracle i with
      | some e => simp [bulk_insert_embeddings, h0] at h
      | none =>
          simp only [bulk_insert_embeddings, h0] at h
          cases j with
          | zero => simpa using h0
          | succ j =>
              have := ih (i + 1) _ h j (by simpa using Nat.lt_of_succ_lt_succ hj)
              simpa [Nat.add_assoc, Nat.add_comm 1 j] using this

theorem replicaWait_formula (pre rest : List Int) (h : ∀ p ∈ pre, p ≠ 1) :
    replicaWait (pre ++ 1 :: rest) =
      some ((pre.map (fun p => [OptEvent.pollProgress p, OptEvent.sleep 2])).flatten
        ++ [OptEvent.pollProgress 1]) := by
  induction pre with
  | nil => simp [replicaWait]
  | cons p pre ih =>
      have hp : p ≠ 1 := h p (by simp)
      have ih' := ih (fun q hq => h q (by simp [hq]))
      simp only [List.cons_append, replicaWait, if_pos hp, ih', Option.map_some]
      simp
      exact ih'

theorem pendingWait_formula (pre rest : List Int) (x : Int)
    (h : ∀ p ∈ pre, 0 < p) (hx : x ≤ 0) :
    pendingWait (pre ++ x :: rest) =
      some ((pre.map (fun p => [OptEvent.pollPending p, OptEvent.sleep 2])).flatten
        ++ [OptEvent.pollPending x]) := by
  induction pre with
  | nil => simp [pendingWait, Int.not_lt.mpr hx]
  | cons p pre ih =>
      have hp : 0 < p := h p (by simp)
      have ih' := ih (fun q hq => h q (by simp [hq]))
      simp only [List.cons_append, pendingWait, if_pos hp, ih', Option.map_some]
      simp
      exact ih'

theorem countPolls_pollTrace (pre : List Int) (v : Int) :
    countPolls ((pre.map (fun p => [OptEvent.pollProgress p, OptEvent.sleep 2])).flatten
        ++ [OptEvent.pollProgress v]) = pre.length + 1 := by
  induction pre with
  | nil => rfl
  | cons p pre ih => simpa [countPolls, List.countP_cons] using ih

theorem countSleeps_pollTrace (pre : List Int) (v : Int) :
    countSleeps ((pre.map (fun p => [OptEvent.pollProgress p, OptEvent.sleep 2])).flatten
        ++ [OptEvent.pollProgress v]) = pre.length := by
  induction pre with
  | nil => rfl
  | cons p pre ih => simpa [countSleeps, List.countP_cons] using ih

theorem optimize_formula (progress pending : List Int) (t1 t2 : List OptEvent)
    (h1 : replicaWait progress = some t1) (h2 : pendingWait pending = some t2) :
    optimize progress pending =
      some ([OptEvent.dropIndex, OptEvent.setTiflashReplica,
             OptEvent.createVectorIndex] ++ t1 ++
            [OptEvent.catchUpRead, OptEvent.compact] ++ t2) := by
  simp [optimize, h1, h2]

/-! ### Claim theorems -/

/-- C1: for every `TiDBIndexConfig` (any metric type, including the default),
constructing the adapter raises `KeyError("metric_fn")` because
`search_param()` is the empty dict; and `_create_table` raises the same
`KeyError` because `index_param()` only contains the key `"distance"`. -/
theorem construct_and_create_table_raise_keyError (dim : Nat)
    (cfg : TiDBIndexConfig) (name : String) (tables : List String)
    (st : TiDBState) :
    TiDB.construct dim cfg name = Except.error (PyError.keyError "metric_fn") ∧
    create_table tables st = Except.error (PyError.keyError "metric_fn") := by
  constructor
  · simp [TiDB.construct, dictGet, TiDBIndexConfig.search_param]
  · simp [create_table, dictGet, TiDBIndexConfig.index_param]

set_option maxRecDepth 8192 in
/-- C2 counterexample: with the metric configured to L2 the resolved index
parameter is `"Euclid"`, yet `_create_index` issues exactly the statements it
issues under the cosine configuration, and its CREATE VECTOR INDEX statement
mentions the fixed `VEC_COSINE_DISTANCE` function and not the configured
one — so the index is not bound to the configured metric's function. -/
theorem create_index_ignores_metric_cex :
    create_index_stmts
        { table_name := "vector_bench_test", dim := 1536,
          vector_field := "embedding", index_name := "tidb_vector_index",
          search_fn := "", case_config := { metric_type := some MetricType.L2 } } =
      create_index_stmts
        { table_name := "vector_bench_test", dim := 1536,
          vector_field := "embedding", index_name := "tidb_vector_index",
          search_fn := "", case_config := { metric_type := some MetricType.COSINE } } ∧
    TiDBIndexConfig.parse_metric { metric_type := some MetricType.L2 } = "Euclid" ∧
    ¬ ("Euclid".toList <:+:
        ((create_index_stmts
          { table_name := "vector_bench_test", dim := 1536,
            vector_field := "embedding", index_name := "tidb_vector_index",
            search_fn := "", case_config := { metric_type := some MetricType.L2 } }).getD 1 "").toList) ∧
    ("VEC_COSINE_DISTANCE".toList <:+:
        ((create_index_stmts
          { table_name := "vector_bench_test", dim := 1536,
            vector_field := "embedding", index_name := "tidb_vector_index",
            search_fn := "", case_config := { metric_type := some MetricType.L2 } }).getD 1 "").toList) := by
  refine ⟨rfl, rfl, by decide, by decide⟩

/-- C2 amended: for every adapter state and every configured metric,
`_create_index` issues the same two statements — the index is bound to the
fixed `VEC_COSINE_DISTANCE` function, independent of the metric. -/
theorem create_index_fixed_cosine (st : TiDBState) (cfg : TiDBIndexConfig) :
    create_index_stmts { st with case_config := cfg } = create_index_stmts st ∧
    (create_index_stmts st).getD 1 "" =
      "CREATE VECTOR INDEX `" ++ st.index_name ++ "` ON `" ++ st.table_name ++
        "` ((VEC_COSINE_DISTANCE(" ++ st.vector_field ++ "))) USING HNSW;" :=
  ⟨rfl, rfl⟩

/-- C3 counterexample: on the trace of `optimize` with catalog answers
`[1]` and `[0]`, the TiFlash replica is enabled at position 1 and the vector
index is recreated at position 2 — the replica enable is strictly BEFORE the
index recreation, not strictly after it as the claim states. -/
theorem optimize_replica_before_index_cex :
    optimize [1] [0] =
      some [OptEvent.dropIndex, OptEvent.setTiflashReplica,
            OptEvent.createVectorIndex, OptEvent.pollProgress 1,
            OptEvent.catchUpRead, OptEvent.compact, OptEvent.pollPending 0] ∧
    List.indexOf OptEvent.setTiflashReplica
        [OptEvent.dropIndex, OptEvent.setTiflashReplica,
         OptEvent.createVectorIndex, OptEvent.pollProgress 1,
         OptEvent.catchUpRead, OptEvent.compact, OptEvent.pollPending 0] = 1 ∧
    List.indexOf OptEvent.createVectorIndex
        [OptEvent.dropIndex, OptEvent.setTiflashReplica,
         OptEvent.createVectorIndex, OptEvent.pollProgress 1,
         OptEvent.catchUpRead, OptEvent.compact, OptEvent.pollPending 0] = 2 := by
  refine ⟨by decide, by decide, by decide⟩

/-- C3 amended: whenever both polling loops exit, the `optimize` trace is:
drop the vector index, enable the TiFlash replica, recreate the vector index
(the replica enable happens inside `_create_index`, strictly BEFORE the index
DDL), then the replica-progress polls, then the catch-up read, then the
compaction, then the backlog polls. -/
theorem optimize_stage_order (progress pending : List Int)
    (t1 t2 : List OptEvent) (h1 : replicaWait progress = some t1)
    (h2 : pendingWait pending = some t2) :
    optimize progress pending =
      some ([OptEvent.dropIndex, OptEvent.setTiflashReplica,
             OptEvent.createVectorIndex] ++ t1 ++
            [OptEvent.catchUpRead, OptEvent.compact] ++ t2) :=
  optimize_formula progress pending t1 t2 h1 h2

/-- Witness for the amended C3 theorem at the concrete catalog answers
`[1]` and `[0]`. -/
theorem optimize_stage_order_witness :
    optimize [1] [0] =
      some ([OptEvent.dropIndex, OptEvent.setTiflashReplica,
             OptEvent.createVectorIndex] ++ [OptEvent.pollProgress 1] ++
            [OptEvent.catchUpRead, OptEvent.compact] ++ [OptEvent.pollPending 0]) :=
  optimize_stage_order [1] [0] [OptEvent.pollProgress 1] [OptEvent.pollPending 0]
    (by decide) (by decide)

/-- C7: when the catalog's answers are `pre ++ 1 :: rest` with no `1` in
`pre`, the replica loop's trace polls exactly `pre.length + 1` times with a
2-unit sleep after each non-terminal poll and none after the terminal one;
the loop exits (and `optimize` proceeds) whenever the catalog eventually
reports 1, and the backlog loop likewise exits once the reported backlog
reaches a non-positive value. -/
theorem optimize_poll_counts (pre rest pend_pre rest2 : List Int) (x : Int)
    (t : List OptEvent) (h1 : ∀ p ∈ pre, p ≠ 1)
    (hpend : ∀ q ∈ pend_pre, 0 < q) (hx : x ≤ 0)
    (ht : t = (pre.map (fun p => [OptEvent.pollProgress p, OptEvent.sleep 2])).flatten
        ++ [OptEvent.pollProgress 1]) :
    replicaWait (pre ++ 1 :: rest) = some t ∧
    countPolls t = pre.length + 1 ∧
    countSleeps t = pre.length ∧
    t.getLast? = some (OptEvent.pollProgress 1) ∧
    (pendingWait (pend_pre ++ x :: rest2)).isSome = true ∧
    (optimize (pre ++ 1 :: rest) (pend_pre ++ x :: rest2)).isSome = true := by
  subst ht
  refine ⟨replicaWait_formula pre rest h1, countPolls_pollTrace pre 1,
    countSleeps_pollTrace pre 1, ?_, ?_, ?_⟩
  · exact List.getLast?_concat _
  · rw [pendingWait_formula pend_pre rest2 x hpend hx]
    rfl
  · rw [optimize_formula _ _ _ _ (replicaWait_formula pre rest h1)
      (pendingWait_formula pend_pre rest2 x hpend hx)]
    rfl

/-- Witness for C7 at the spec's example: catalog progress answers
`[0, 0, 1]` give exactly 3 polls and 2 sleeps, and a backlog sequence
`[5, 0]` lets the backlog loop exit. -/
theorem optimize_poll_counts_witness :
    replicaWait [0, 0, 1] =
      some [OptEvent.pollProgress 0, OptEvent.sleep 2, OptEvent.pollProgress 0,
            OptEvent.sleep 2, OptEvent.pollProgress 1] ∧
    countPolls [OptEvent.pollProgress 0, OptEvent.sleep 2, OptEvent.pollProgress 0,
        OptEvent.sleep 2, OptEvent.pollProgress 1] = 3 ∧
    countSleeps [OptEvent.pollProgress 0, OptEvent.sleep 2, OptEvent.pollProgress 0,
        OptEvent.sleep 2, OptEvent.pollProgress 1] = 2 ∧
    (optimize [0, 0, 1] [5, 0]).isSome = true := by
  have h := optimize_poll_counts [0, 0] [] [5] [] 0
    [OptEvent.pollProgress 0, OptEvent.sleep 2, OptEvent.pollProgress 0,
     OptEvent.sleep 2, OptEvent.pollProgress 1]
    (by decide) (by decide) (by decide) (by decide)
  exact ⟨h.1, h.2.1, h.2.2.1, h.2.2.2.2.2⟩

theorem sha1_length (msg : List Nat) : (sha1 msg).length = 20 := by
  simp [sha1, toBe32]

theorem uuid5Bytes_length (s : String) : (uuid5Bytes s).length = 16 := by
  simp [uuid5Bytes, List.length_set, List.length_take, sha1_length]

theorem insert_embeddings_snd {V : Type} (committed : List (Row V))
    (em : List V) (md : List Int) (oracle : Nat → Option PyError) :
    (insert_embeddings committed em md oracle).2 =
      if em.length = 0 then Except.ok 0
      else
        match (loadChunks oracle 0
            ((chunkSlices (batchSize em.length 10) em).zip
              (chunkSlices (batchSize em.length 10) md)) committed).2 with
        | none => Except.ok md.length
        | some e => Except.error e := by
  by_cases hem : em.length = 0
  · simp [insert_embeddings, hem]
  · rw [insert_embeddings]
    simp only [hem, if_false, ite_false]
    cases hLC : loadChunks oracle 0
        ((chunkSlices (batchSize em.length 10) em).zip
          (chunkSlices (batchSize em.length 10) md)) committed with
    | mk st' o => cases o <;> simp [hLC]

/-- C4: a non-empty batch is partitioned into contiguous sub-batches whose
concatenation is exactly the original batch in order, each slice being
`l[i*bs : i*bs+bs]` for the same index ranges on identifiers and vectors,
every sub-batch except possibly the last having size exactly
`bs = max(1, ceil(N/10))` (`workers = 10`). -/
theorem insert_chunking {α β : Type} (em : List α) (md : List β) (bs : Nat)
    (_hne : em ≠ []) (hlen : em.length = md.length)
    (hbs : bs = batchSize em.length 10) :
    (chunkSlices bs em).flatten = em ∧
    (chunkSlices bs md).flatten = md ∧
    chunkSlices bs em =
      (List.range (chunkSlices bs em).length).map
        (fun i => (em.drop (i * bs)).take bs) ∧
    chunkSlices bs md =
      (List.range (chunkSlices bs em).length).map
        (fun i => (md.drop (i * bs)).take bs) ∧
    ((chunkSlices bs em).dropLast.all (fun c => c.length == bs) = true) ∧
    ((chunkSlices bs md).dropLast.all (fun c => c.length == bs) = true) ∧
    bs = max 1 ((em.length + 9) / 10) := by
  have hbs0 : bs ≠ 0 := by
    rw [hbs]
    unfold batchSize
    omega
  refine ⟨chunkSlices_flatten bs em hbs0, chunkSlices_flatten bs md hbs0,
    chunkSlices_eq_range_map bs em hbs0, ?_, ?_, ?_, by rw [hbs]; rfl⟩
  · rw [chunkSlices_length_congr bs em md hbs0 hlen]
    exact chunkSlices_eq_range_map bs md hbs0
  · simp only [List.all_eq_true]
    intro c hc
    exact beq_iff_eq.mpr (chunkSlices_dropLast_sizes bs em hbs0 c hc)
  · simp only [List.all_eq_true]
    intro c hc
    exact beq_iff_eq.mpr (chunkSlices_dropLast_sizes bs md hbs0 c hc)

/-- Witness for C4 at the spec's example: a batch of length 25 is sliced with
sub-batch size 3, the slices concatenate back to the batch, and every slice
except the last has length exactly 3. -/
theorem insert_chunking_witness :
    (chunkSlices 3 (List.range 25)).flatten = List.range 25 ∧
    ((chunkSlices 3 (List.range 25)).dropLast.all (fun c => c.length == 3) = true) := by
  have h := insert_chunking (List.range 25) (List.range 25) 3
    (by decide) rfl (by decide)
  exact ⟨h.1, h.2.2.2.2.1⟩

/-- C5: for equal-length identifier and vector sequences, the concurrent
load returns `(len(metadata), None)` when every worker succeeds; when some
worker fails it raises the first failing worker's exception (workers
sequentialized in submission order); and a success return implies no worker
failed. -/
theorem insert_concurrent_load {V : Type} (committed : List (Row V))
    (em : List V) (md : List Int) (oracle : Nat → Option PyError)
    (pairs : List (List V × List Int)) (hlen : em.length = md.length)
    (hpairs : pairs = (chunkSlices (batchSize em.length 10) em).zip
        (chunkSlices (batchSize em.length 10) md)) :
    ((∀ i, oracle i = none) →
      (insert_embeddings committed em md oracle).2 = Except.ok md.length) ∧
    (∀ k e, k < pairs.length → oracle k = some e →
      (∀ j, j < k → oracle j = none) →
      (insert_embeddings committed em md oracle).2 = Except.error e) ∧
    (∀ n, (insert_embeddings committed em md oracle).2 = Except.ok n →
      n = md.length ∧ ∀ j, j < pairs.length → oracle j = none) := by
  subst hpairs
  refine ⟨?_, ?_, ?_⟩
  · intro hall
    by_cases hem : em.length = 0
    · have hmd : md.length = 0 := hlen ▸ hem
      rw [insert_embeddings_snd, if_pos hem, hmd]
    · have h2 : (loadChunks oracle 0
          ((chunkSlices (batchSize em.length 10) em).zip
            (chunkSlices (batchSize em.length 10) md)) committed).2 = none :=
        loadChunks_all_ok _ _ 0 _ (fun j _ => hall (0 + j))
      rw [insert_embeddings_snd, if_neg hem, h2]
  · intro k e hk he hbefore
    have hem : em.length ≠ 0 := by
      intro h0
      have hnil : em = [] := List.length_eq_zero.mp h0
      subst hnil
      simp [chunkSlices] at hk
    have h2 : (loadChunks oracle 0
        ((chunkSlices (batchSize em.length 10) em).zip
          (chunkSlices (batchSize em.length 10) md)) committed).2 = some e :=
      loadChunks_first_fail oracle _ 0 k committed e hk
        (by simpa using he) (fun j hj => by simpa using hbefore j hj)
    rw [insert_embeddings_snd, if_neg hem, h2]
  · intro n hres
    by_cases hem : em.length = 0
    · rw [insert_embeddings_snd, if_pos hem] at hres
      have hnil : em = [] := List.length_eq_zero.mp hem
      subst hnil
      refine ⟨?_, ?_⟩
      · have hmd : md.length = 0 := hlen ▸ hem
        simp only [Except.ok.injEq] at hres
        omega
      · intro j hj
        simp [chunkSlices] at hj
    · rw [insert_embeddings_snd, if_neg hem] at hres
      cases h2 : (loadChunks oracle 0
          ((chunkSlices (batchSize em.length 10) em).zip
            (chunkSlices (batchSize em.length 10) md)) committed).2 with
      | none =>
          rw [h2] at hres
          simp only [Except.ok.injEq] at hres
          exact ⟨hres.symm, fun j hj => by
            simpa using loadChunks_ok_all oracle _ 0 committed h2 j hj⟩
      | some e =>
          rw [h2] at hres
          simp at hres

/-- Witness for C5: a 25-element batch with an all-successful oracle returns
`(25, None)`. -/
theorem insert_concurrent_load_witness :
    (insert_embeddings ([] : List (Row Nat)) (List.range 25)
      ((List.range 25).map Int.ofNat) (fun _ => none)).2 =
      Except.ok ((List.range 25).map Int.ofNat).length :=
  (insert_concurrent_load [] (List.range 25) ((List.range 25).map Int.ofNat)
    (fun _ => none) _ (by simp) rfl).1 (fun _ => rfl)

/-- C6: the single-statement path builds one multi-row insert covering the
whole batch (one placeholder group and one row per batch element); on
success the whole batch is committed, on failure the committed state is
unchanged and the error is re-raised — never a proper sub-prefix. -/
theorem bulk_insert_atomicity {V : Type} (committed : List (Row V))
    (em : List V) (md : List Int) (outcome : Option PyError)
    (hlen : em.length = md.length) :
    (valuesPlaceholders md em).length = md.length ∧
    (buildRows md em).length = md.length ∧
    (outcome = none →
      bulk_insert_embeddings committed em md outcome =
        (committed ++ buildRows md em, none)) ∧
    (outcome.isSome = true →
      bulk_insert_embeddings committed em md outcome = (committed, outcome)) ∧
    ((bulk_insert_embeddings committed em md outcome).1 = committed ∨
      (bulk_insert_embeddings committed em md outcome).1 =
        committed ++ buildRows md em) := by
  refine ⟨?_, ?_, ?_, ?_, ?_⟩
  · simp [valuesPlaceholders, hlen]
  · simp [buildRows, hlen]
  · intro h
    subst h
    rfl
  · intro h
    cases outcome with
    | none => simp at h
    | some e => rfl
  · cases outcome with
    | none => exact Or.inr rfl
    | some e => exact Or.inl rfl

/-- Witness for C6 at a failing two-row batch: the committed state is
unchanged and the error is surfaced. -/
theorem bulk_insert_atomicity_witness :
    bulk_insert_embeddings ([] : List (Row Nat)) [7, 8] [4, 5]
        (some (PyError.dbError 1264)) = ([], some (PyError.dbError 1264)) ∧
    (valuesPlaceholders [(4 : Int), 5] [7, 8]).length = 2 := by
  have h := bulk_insert_atomicity ([] : List (Row Nat)) [7, 8] [4, 5]
    (some (PyError.dbError 1264)) rfl
  exact ⟨h.2.2.2.1 rfl, h.1⟩

/-- C8 counterexample: executing `_create_table` when the target table
already exists raises an error (a `KeyError` while interpolating the missing
`index_param["metric_fn"]`, before any SQL is issued), refuting the claimed
idempotent success. -/
theorem create_table_existing_fails_cex :
    create_table ["vector_bench_test"]
        { table_name := "vector_bench_test", dim := 1536,
          vector_field := "embedding", index_name := "tidb_vector_index",
          search_fn := "", case_config := { metric_type := none } } =
      Except.error (PyError.keyError "metric_fn") := rfl

/-- C8 amended: `_create_table` never succeeds: for every database state and
every adapter state it raises `KeyError("metric_fn")` while building the
statement, so it is in particular not an idempotent create. -/
theorem create_table_never_succeeds (tables : List String) (st : TiDBState) :
    create_table tables st = Except.error (PyError.keyError "metric_fn") := by
  simp [create_table, dictGet, TiDBIndexConfig.index_param]

/-- C9: `search_embedding` ignores its `filters` (and `timeout`) argument:
for any two filter values — even of different types — it issues the same SQL
statement and returns the same identifier list. -/
theorem search_ignores_filters (F1 F2 : Type) (st : TiDBState)
    (db : String → List Int) (queryRepr : String) (k : Nat)
    (f1 : Option F1) (f2 : Option F2) (t1 t2 : Option Nat) :
    search_embedding st db queryRepr k f1 t1 =
      search_embedding st db queryRepr k f2 t2 ∧
    (search_embedding st db queryRepr k f1 t1).1 = searchSQL st queryRepr k ∧
    (search_embedding st db queryRepr k f1 t1).2 = db (searchSQL st queryRepr k) :=
  ⟨rfl, rfl, rfl⟩

/-- C10: the surrogate key is a pure function of the identifier alone —
equal identifiers give identical bytes, in the same run, across runs, and
across workers — and it is always exactly 16 bytes (uuid5 of the decimal
string under the DNS namespace). -/
theorem surrogate_key_deterministic (m1 m2 : Int) (h : m1 = m2) :
    surrogateKey m1 = surrogateKey m2 ∧
    (surrogateKey m1).length = 16 ∧
    surrogateKey m1 = uuid5Bytes (toString m1) := by
  subst h
  exact ⟨rfl, uuid5Bytes_length (toString m1), rfl⟩

/-- Witness for C10 at the identifier 25. -/
theorem surrogate_key_deterministic_witness :
    surrogateKey 25 = surrogateKey 25 ∧ (surrogateKey 25).length = 16 :=
  ⟨(surrogate_key_deterministic 25 25 rfl).1,
   (surrogate_key_deterministic 25 25 rfl).2.1⟩

end VDB
